import Mathlib

/-!
Shallow embedding of `lightning/src/chain/keysinterface.rs` (rust-lightning).

Bytes are modelled as `List Nat` (each element a byte value); machine
integers are `Nat` with explicit `% 2^w` where Rust wraps or casts.
External cryptographic primitives (SHA-256, secp256k1 operations, BIP-32
child derivation, BIP-143 sighash computation, `ln::chan_utils` helpers)
live in other crates or modules; they are modelled as abstract function
fields of a `Crypto` structure, while all control flow, hashing order,
validation and state handling is translated from `keysinterface.rs`
itself.

Fallible Rust code returns `Res`: `.ok` for `Ok`, `.err` for `Err(())`,
and `.fatal` for a panic (`expect`, `assert!`, `unwrap`, out-of-bounds
indexing), which aborts rather than being surfaced as a `Result`.
-/

/-- Outcome of a Rust operation: success, recoverable `Err`, or a panic. -/
inductive Res (α : Type) where
  | ok : α → Res α
  | err : Res α
  | fatal : Res α
deriving Repr, DecidableEq

/-- Big-endian 4-byte encoding of a `u32` value (`byte_utils::be32_to_array`). -/
def be32 (n : Nat) : List Nat :=
  [n / 2 ^ 24 % 256, n / 2 ^ 16 % 256, n / 2 ^ 8 % 256, n % 256]

/-- Big-endian 8-byte encoding of a `u64` value (`byte_utils::be64_to_array`). -/
def be64 (n : Nat) : List Nat :=
  [n / 2 ^ 56 % 256, n / 2 ^ 48 % 256, n / 2 ^ 40 % 256, n / 2 ^ 32 % 256,
   n / 2 ^ 24 % 256, n / 2 ^ 16 % 256, n / 2 ^ 8 % 256, n % 256]

/-- ASCII bytes of a label string such as `b"commitment seed"`. -/
def strBytes (s : String) : List Nat := s.data.map Char.toNat

/-- Compressed secp256k1 public keys are byte lists (33 bytes). -/
abbrev PubKey := List Nat

/-- secp256k1 secret keys are their raw 32 bytes (`SecretKey` stores bytes). -/
abbrev SecKey := List Nat

/-- ECDSA signatures, abstract bytes. -/
abbrev Sig := List Nat

/-- Bitcoin scripts as raw bytes. -/
abbrev ScriptBytes := List Nat

/-- A BIP-32 extended private key: the secret key bytes plus chain code. -/
structure ExtPrivKey where
  privKey : SecKey
  chainCode : List Nat
deriving Repr, DecidableEq

/-- `bitcoin::Network`, only carried through to master-key construction. -/
inductive Network where
  | bitcoin
  | testnet
  | regtest
deriving Repr, DecidableEq

/-- `ln::chan_utils::ChannelPublicKeys`: the five per-channel basepoints. -/
structure ChannelPublicKeys where
  funding_pubkey : PubKey
  revocation_basepoint : PubKey
  payment_point : PubKey
  delayed_payment_basepoint : PubKey
  htlc_basepoint : PubKey
deriving Repr, DecidableEq

/-- A transaction input: previous outpoint hash/index and its witness stack. -/
structure TxIn where
  prevTxid : List Nat
  prevVout : Nat
  witness : List (List Nat)
deriving Repr, DecidableEq

instance : Inhabited TxIn := ⟨⟨[], 0, []⟩⟩

/-- A transaction output: value in satoshis and the scriptPubKey bytes. -/
structure TxOut where
  value : Nat
  script_pubkey : ScriptBytes
deriving Repr, DecidableEq

/-- `bitcoin::blockdata::transaction::OutPoint`. -/
structure OutPoint where
  txid : List Nat
  vout : Nat
deriving Repr, DecidableEq

/-- A Bitcoin transaction, reduced to the fields `keysinterface.rs` reads. -/
structure Transaction where
  input : List TxIn
  output : List TxOut
deriving Repr, DecidableEq

/-- `ln::chan_utils::HTLCOutputInCommitment`. -/
structure HTLCOutputInCommitment where
  offered : Bool
  amount_msat : Nat
  cltv_expiry : Nat
  payment_hash : List Nat
  transaction_output_index : Option Nat
deriving Repr, DecidableEq

/-- `ln::chan_utils::TxCreationKeys`, the per-commitment derived key set. -/
structure TxCreationKeys where
  per_commitment_point : PubKey
  revocation_key : PubKey
  a_htlc_key : PubKey
  b_htlc_key : PubKey
  a_delayed_payment_key : PubKey
  b_payment_key : PubKey
deriving Repr, DecidableEq

/-- `ln::chan_utils::LocalCommitmentTransaction`, opaque to keysinterface. -/
structure LocalCommitmentTx where
  data : List Nat
deriving Repr, DecidableEq

/-- `ln::msgs::UnsignedChannelAnnouncement`, opaque to keysinterface. -/
structure UnsignedChannelAnnouncement where
  data : List Nat
deriving Repr, DecidableEq

/-- Abstract interface to the external crates and modules used by
`keysinterface.rs`: SHA-256 (`bitcoin::hashes`), secp256k1 key and
signing operations, BIP-32 child derivation (`bitcoin::util::bip32`),
BIP-143 sighash computation (`bitcoin::util::bip143`), HASH160
(`WPubkeyHash::hash`), and the `ln::chan_utils` helpers. Each field is
an arbitrary total (or `Option`-valued, where the original is fallible)
function; theorems hold for every instantiation. -/
structure Crypto where
  sha256 : List Nat → List Nat
  fromSecret : SecKey → PubKey
  secValid : SecKey → Bool
  sign : List Nat → SecKey → Sig
  newMaster : Network → List Nat → Option ExtPrivKey
  ckdPriv : ExtPrivKey → Nat → Option ExtPrivKey
  hash160 : List Nat → List Nat
  sighashAll : Transaction → TxIn → ScriptBytes → Nat → List Nat
  txid : Transaction → List Nat
  makeFundingRedeemscript : PubKey → PubKey → ScriptBytes
  buildHtlcTransaction : List Nat → Nat → Nat → HTLCOutputInCommitment → PubKey → PubKey → Transaction
  getHtlcRedeemscript : HTLCOutputInCommitment → TxCreationKeys → ScriptBytes
  getHtlcRedeemscriptExplicit : HTLCOutputInCommitment → PubKey → PubKey → PubKey → ScriptBytes
  getRevokeableRedeemscript : PubKey → Nat → PubKey → ScriptBytes
  derivePrivateKey : PubKey → SecKey → Option SecKey
  derivePrivateRevocationKey : SecKey → SecKey → Option SecKey
  derivePublicKey : PubKey → PubKey → Option PubKey
  derivePublicRevocationKey : PubKey → PubKey → Option PubKey
  getLocalSig : LocalCommitmentTx → SecKey → ScriptBytes → Nat → Sig
  getHtlcSigs : LocalCommitmentTx → SecKey → Nat → Option (List (Option Sig))
  encodeAnnouncement : UnsignedChannelAnnouncement → List Nat

/-- `SecretKey::from_slice`: succeeds exactly on valid scalar encodings and
then stores the given bytes unchanged. -/
def Crypto.fromSlice (c : Crypto) (bs : List Nat) : Option SecKey :=
  if c.secValid bs then some bs else none

/-- `InMemoryChannelKeys`: the in-memory `ChannelKeys` implementation. -/
structure InMemoryChannelKeys where
  funding_key : SecKey
  revocation_base_key : SecKey
  payment_key : SecKey
  delayed_payment_base_key : SecKey
  htlc_base_key : SecKey
  commitment_seed : List Nat
  local_channel_pubkeys : ChannelPublicKeys
  remote_channel_pubkeys : Option ChannelPublicKeys
  channel_value_satoshis : Nat
  key_derivation_params : Nat × Nat
deriving Repr, DecidableEq

/-- `InMemoryChannelKeys::make_local_keys`: basepoints from the secrets. -/
def make_local_keys (c : Crypto) (funding_key revocation_base_key payment_key
    delayed_payment_base_key htlc_base_key : SecKey) : ChannelPublicKeys :=
  { funding_pubkey := c.fromSecret funding_key
    revocation_basepoint := c.fromSecret revocation_base_key
    payment_point := c.fromSecret payment_key
    delayed_payment_basepoint := c.fromSecret delayed_payment_base_key
    htlc_basepoint := c.fromSecret htlc_base_key }

/-- `InMemoryChannelKeys::new`: caches the local basepoints, leaves the
remote basepoints unset. -/
def InMemoryChannelKeys.new (c : Crypto) (funding_key revocation_base_key payment_key
    delayed_payment_base_key htlc_base_key : SecKey) (commitment_seed : List Nat)
    (channel_value_satoshis : Nat) (key_derivation_params : Nat × Nat) :
    InMemoryChannelKeys :=
  { funding_key, revocation_base_key, payment_key, delayed_payment_base_key,
    htlc_base_key, commitment_seed,
    local_channel_pubkeys :=
      make_local_keys c funding_key revocation_base_key payment_key
        delayed_payment_base_key htlc_base_key,
    remote_channel_pubkeys := none,
    channel_value_satoshis, key_derivation_params }

/-- The inner loop of `sign_remote_commitment`: one signature per HTLC with
`transaction_output_index = Some(_)`, in slice order; `htlc_tx.input[0]`
panics if the built HTLC transaction has no inputs; `derive_private_key`
failure is `return Err(())`. -/
def remoteHtlcSigsLoop (c : Crypto) (k : InMemoryChannelKeys) (feerate_per_kw : Nat)
    (keys : TxCreationKeys) (to_self_delay : Nat) (commitment_txid : List Nat) :
    List HTLCOutputInCommitment → Res (List Sig)
  | [] => .ok []
  | htlc :: rest =>
    match htlc.transaction_output_index with
    | none => remoteHtlcSigsLoop c k feerate_per_kw keys to_self_delay commitment_txid rest
    | some _ =>
      let htlc_tx := c.buildHtlcTransaction commitment_txid feerate_per_kw to_self_delay
        htlc keys.a_delayed_payment_key keys.revocation_key
      let htlc_redeemscript := c.getHtlcRedeemscript htlc keys
      match htlc_tx.input.head? with
      | none => .fatal
      | some in0 =>
        let htlc_sighash := c.sighashAll htlc_tx in0 htlc_redeemscript (htlc.amount_msat / 1000)
        match c.derivePrivateKey keys.per_commitment_point k.htlc_base_key with
        | none => .err
        | some our_htlc_key =>
          match remoteHtlcSigsLoop c k feerate_per_kw keys to_self_delay commitment_txid rest with
          | .ok sigs => .ok (c.sign htlc_sighash our_htlc_key :: sigs)
          | .err => .err
          | .fatal => .fatal

/-- `InMemoryChannelKeys::sign_remote_commitment`. -/
def sign_remote_commitment (c : Crypto) (k : InMemoryChannelKeys) (feerate_per_kw : Nat)
    (commitment_tx : Transaction) (keys : TxCreationKeys)
    (htlcs : List HTLCOutputInCommitment) (to_self_delay : Nat) :
    Res (Sig × List Sig) :=
  match commitment_tx.input with
  | [in0] =>
    let funding_pubkey := c.fromSecret k.funding_key
    match k.remote_channel_pubkeys with
    | none => .fatal
    | some remote_channel_pubkeys =>
      let channel_funding_redeemscript :=
        c.makeFundingRedeemscript funding_pubkey remote_channel_pubkeys.funding_pubkey
      let commitment_sighash :=
        c.sighashAll commitment_tx in0 channel_funding_redeemscript k.channel_value_satoshis
      let commitment_sig := c.sign commitment_sighash k.funding_key
      let commitment_txid := c.txid commitment_tx
      match remoteHtlcSigsLoop c k feerate_per_kw keys to_self_delay commitment_txid htlcs with
      | .ok htlc_sigs => .ok (commitment_sig, htlc_sigs)
      | .err => .err
      | .fatal => .fatal
  | _ => .err

/-- `InMemoryChannelKeys::sign_local_commitment`. -/
def sign_local_commitment (c : Crypto) (k : InMemoryChannelKeys)
    (local_commitment_tx : LocalCommitmentTx) : Res Sig :=
  let funding_pubkey := c.fromSecret k.funding_key
  match k.remote_channel_pubkeys with
  | none => .fatal
  | some remote_channel_pubkeys =>
    let channel_funding_redeemscript :=
      c.makeFundingRedeemscript funding_pubkey remote_channel_pubkeys.funding_pubkey
    .ok (c.getLocalSig local_commitment_tx k.funding_key channel_funding_redeemscript
      k.channel_value_satoshis)

/-- `InMemoryChannelKeys::sign_local_commitment_htlc_transactions`. -/
def sign_local_commitment_htlc_transactions (c : Crypto) (k : InMemoryChannelKeys)
    (local_commitment_tx : LocalCommitmentTx) (local_csv : Nat) :
    Res (List (Option Sig)) :=
  match c.getHtlcSigs local_commitment_tx k.htlc_base_key local_csv with
  | some sigs => .ok sigs
  | none => .err

/-- `InMemoryChannelKeys::sign_justice_transaction`: derives the revocation
key and witness script, then signs `justice_tx.input[input]` — the indexing
panics when `input` is out of range; reading the remote basepoints
(`remote_pubkeys()`) unwraps and panics when they are unset. -/
def sign_justice_transaction (c : Crypto) (k : InMemoryChannelKeys)
    (justice_tx : Transaction) (input : Nat) (amount : Nat)
    (per_commitment_key : SecKey) (htlc : Option HTLCOutputInCommitment)
    (on_remote_tx_csv : Nat) : Res Sig :=
  match c.derivePrivateRevocationKey per_commitment_key k.revocation_base_key with
  | none => .err
  | some revocation_key =>
    let per_commitment_point := c.fromSecret per_commitment_key
    match c.derivePublicRevocationKey per_commitment_point
        k.local_channel_pubkeys.revocation_basepoint with
    | none => .err
    | some revocation_pubkey =>
      let wsRes : Res ScriptBytes :=
        match htlc with
        | some h =>
          match k.remote_channel_pubkeys with
          | none => .fatal
          | some remote =>
            match c.derivePublicKey per_commitment_point remote.htlc_basepoint with
            | none => .err
            | some remote_htlcpubkey =>
              match c.derivePublicKey per_commitment_point
                  k.local_channel_pubkeys.htlc_basepoint with
              | none => .err
              | some local_htlcpubkey =>
                .ok (c.getHtlcRedeemscriptExplicit h remote_htlcpubkey local_htlcpubkey
                  revocation_pubkey)
        | none =>
          match k.remote_channel_pubkeys with
          | none => .fatal
          | some remote =>
            match c.derivePublicKey per_commitment_point remote.delayed_payment_basepoint with
            | none => .err
            | some remote_delayedpubkey =>
              .ok (c.getRevokeableRedeemscript revocation_pubkey on_remote_tx_csv
                remote_delayedpubkey)
      match wsRes with
      | .fatal => .fatal
      | .err => .err
      | .ok witness_script =>
        match justice_tx.input.get? input with
        | none => .fatal
        | some txin =>
          .ok (c.sign (c.sighashAll justice_tx txin witness_script amount) revocation_key)

/-- `InMemoryChannelKeys::sign_remote_htlc_transaction`: same panic
behaviour for `htlc_tx.input[input]` and for unset remote basepoints. -/
def sign_remote_htlc_transaction (c : Crypto) (k : InMemoryChannelKeys)
    (htlc_tx : Transaction) (input : Nat) (amount : Nat)
    (per_commitment_point : PubKey) (htlc : HTLCOutputInCommitment) : Res Sig :=
  match c.derivePrivateKey per_commitment_point k.htlc_base_key with
  | none => .err
  | some htlc_key =>
    match c.derivePublicRevocationKey per_commitment_point
        k.local_channel_pubkeys.revocation_basepoint with
    | none => .err
    | some revocation_pubkey =>
      match k.remote_channel_pubkeys with
      | none => .fatal
      | some remote =>
        match c.derivePublicKey per_commitment_point remote.htlc_basepoint with
        | none => .err
        | some remote_htlcpubkey =>
          match c.derivePublicKey per_commitment_point
              k.local_channel_pubkeys.htlc_basepoint with
          | none => .err
          | some local_htlcpubkey =>
            let witness_script := c.getHtlcRedeemscriptExplicit htlc remote_htlcpubkey
              local_htlcpubkey revocation_pubkey
            match htlc_tx.input.get? input with
            | none => .fatal
            | some txin =>
              .ok (c.sign (c.sighashAll htlc_tx txin witness_script amount) htlc_key)

/-- `InMemoryChannelKeys::sign_closing_transaction`. -/
def sign_closing_transaction (c : Crypto) (k : InMemoryChannelKeys)
    (closing_tx : Transaction) : Res Sig :=
  match closing_tx.input with
  | [in0] =>
    if in0.witness.length ≠ 0 then .err
    else if closing_tx.output.length > 2 then .err
    else
      match k.remote_channel_pubkeys with
      | none => .fatal
      | some remote_channel_pubkeys =>
        let funding_pubkey := c.fromSecret k.funding_key
        let channel_funding_redeemscript :=
          c.makeFundingRedeemscript funding_pubkey remote_channel_pubkeys.funding_pubkey
        let sighash :=
          c.sighashAll closing_tx in0 channel_funding_redeemscript k.channel_value_satoshis
        .ok (c.sign sighash k.funding_key)
  | _ => .err

/-- `InMemoryChannelKeys::sign_channel_announcement`: double-SHA256 of the
encoded message, signed with the funding key. -/
def sign_channel_announcement (c : Crypto) (k : InMemoryChannelKeys)
    (msg : UnsignedChannelAnnouncement) : Res Sig :=
  .ok (c.sign (c.sha256 (c.sha256 (c.encodeAnnouncement msg))) k.funding_key)

/-- `InMemoryChannelKeys::set_remote_channel_pubkeys`: `assert!` that the
field is still `None` (panic otherwise), then store a clone. -/
def set_remote_channel_pubkeys (k : InMemoryChannelKeys)
    (channel_pubkeys : ChannelPublicKeys) : Res InMemoryChannelKeys :=
  match k.remote_channel_pubkeys with
  | none => .ok { k with remote_channel_pubkeys := some channel_pubkeys }
  | some _ => .fatal

/-- `OP_PUSHBYTES_0` (`0x00`), the opcode pushed first into the destination
script builder. -/
def OP_PUSHBYTES_0 : Nat := 0

/-- `Builder::push_slice`: minimal push encoding — a direct length byte
below `0x4c`, else `OP_PUSHDATA1/2/4` with a little-endian length. -/
def pushSlice (bs : List Nat) : List Nat :=
  if bs.length < 76 then bs.length :: bs
  else if bs.length < 2 ^ 8 then 76 :: bs.length :: bs
  else if bs.length < 2 ^ 16 then 77 :: bs.length % 256 :: bs.length / 256 :: bs
  else 78 :: bs.length % 256 :: bs.length / 2 ^ 8 % 256 :: bs.length / 2 ^ 16 % 256 ::
    bs.length / 2 ^ 24 % 256 :: bs

/-- `KeysManager`: cached per-node data, the four master extended keys that
are used further, the three allocation counters, and the seed/time nonce.
The atomic counters are modelled as plain `Nat` fields updated by explicit
state passing. -/
structure KeysManager where
  node_secret : SecKey
  destination_script : ScriptBytes
  shutdown_pubkey : PubKey
  channel_master_key : ExtPrivKey
  channel_child_index : Nat
  session_master_key : ExtPrivKey
  session_child_index : Nat
  channel_id_master_key : ExtPrivKey
  channel_id_child_index : Nat
  seed : List Nat
  starting_time_secs : Nat
  starting_time_nanos : Nat
deriving Repr, DecidableEq

/-- `KeysManager::new`: builds the BIP-32 master key over the seed and the
hardened children at indices 0..=5; every derivation failure panics
("Your RNG is busted"), as does master-key construction failure. -/
def KeysManager.new (c : Crypto) (seed : List Nat) (network : Network)
    (starting_time_secs : Nat) (starting_time_nanos : Nat) : Res KeysManager :=
  match c.newMaster network seed with
  | none => .fatal
  | some master_key =>
    match c.ckdPriv master_key 0 with
    | none => .fatal
    | some node_child =>
      match c.ckdPriv master_key 1 with
      | none => .fatal
      | some destination_key =>
        let wpubkey_hash := c.hash160 (c.fromSecret destination_key.privKey)
        let destination_script := OP_PUSHBYTES_0 :: pushSlice wpubkey_hash
        match c.ckdPriv master_key 2 with
        | none => .fatal
        | some shutdown_key =>
          match c.ckdPriv master_key 3 with
          | none => .fatal
          | some channel_master_key =>
            match c.ckdPriv master_key 4 with
            | none => .fatal
            | some session_master_key =>
              match c.ckdPriv master_key 5 with
              | none => .fatal
              | some channel_id_master_key =>
                .ok {
                  node_secret := node_child.privKey,
                  destination_script,
                  shutdown_pubkey := c.fromSecret shutdown_key.privKey,
                  channel_master_key,
                  channel_child_index := 0,
                  session_master_key,
                  session_child_index := 0,
                  channel_id_master_key,
                  channel_id_child_index := 0,
                  seed,
                  starting_time_secs,
                  starting_time_nanos }

/-- `KeysInterface::get_node_secret` for `KeysManager`: cached clone. -/
def get_node_secret (km : KeysManager) : SecKey := km.node_secret

/-- `KeysInterface::get_destination_script` for `KeysManager`: cached clone. -/
def get_destination_script (km : KeysManager) : ScriptBytes := km.destination_script

/-- `KeysInterface::get_shutdown_pubkey` for `KeysManager`: cached clone. -/
def get_shutdown_pubkey (km : KeysManager) : PubKey := km.shutdown_pubkey

/-- `KeysManager::derive_channel_keys`. `chan_id` is the high 32 bits of
`params_1` (a `u64`); `ChildNumber::from_hardened_idx` rejects indices at
or above `2^31`, which the source's `expect("key space exhausted")` turns
into a panic, as does BIP-32 child-derivation failure and
`SecretKey::from_slice` failure ("SHA-256 is busted"). -/
def derive_channel_keys (c : Crypto) (km : KeysManager)
    (channel_value_satoshis : Nat) (params_1 params_2 : Nat) :
    Res InMemoryChannelKeys :=
  let chan_id := params_1 / 2 ^ 32 % 2 ^ 32
  let unique_start := be64 params_2 ++ be32 (params_1 % 2 ^ 32) ++ km.seed
  if chan_id < 2 ^ 31 then
    match c.ckdPriv km.channel_master_key chan_id with
    | none => .fatal
    | some child_privkey =>
      let seed := c.sha256 (unique_start ++ child_privkey.privKey)
      let commitment_seed := c.sha256 (seed ++ strBytes ("commitment seed"))
      let funding_key := c.sha256 (seed ++ commitment_seed ++ strBytes ("funding key"))
      let revocation_base_key :=
        c.sha256 (seed ++ funding_key ++ strBytes ("revocation base key"))
      let payment_key := c.sha256 (seed ++ revocation_base_key ++ strBytes ("payment key"))
      let delayed_payment_base_key :=
        c.sha256 (seed ++ payment_key ++ strBytes ("delayed payment base key"))
      let htlc_base_key :=
        c.sha256 (seed ++ delayed_payment_base_key ++ strBytes ("HTLC base key"))
      if c.secValid funding_key && c.secValid revocation_base_key && c.secValid payment_key
          && c.secValid delayed_payment_base_key && c.secValid htlc_base_key then
        .ok (InMemoryChannelKeys.new c funding_key revocation_base_key payment_key
          delayed_payment_base_key htlc_base_key commitment_seed channel_value_satoshis
          (params_1, params_2))
      else .fatal
  else .fatal

/-- `KeysInterface::get_channel_keys` for `KeysManager`: fetch-add on the
channel counter, compose `params_1 = (child_ix as u64) << 32 | nanos` and
`params_2 = secs`, then call `derive_channel_keys`; the `_inbound` flag is
unused. Returns the result together with the updated manager state. -/
def get_channel_keys (c : Crypto) (km : KeysManager) (_inbound : Bool)
    (channel_value_satoshis : Nat) : Res InMemoryChannelKeys × KeysManager :=
  let child_ix := km.channel_child_index
  let km' := { km with channel_child_index := child_ix + 1 }
  let ix_and_nanos : Nat :=
    Nat.lor ((child_ix % 2 ^ 64) * 2 ^ 32 % 2 ^ 64) km.starting_time_nanos
  (derive_channel_keys c km channel_value_satoshis ix_and_nanos km.starting_time_secs, km')

/-- Deserialization failure sentinel (`ln::msgs::DecodeError`), reduced to
the two cases reachable in this module: unknown value and short read. -/
inductive DecodeError where
  | invalidValue
  | shortRead
deriving Repr, DecidableEq

/-- A byte-stream decoder: consumes a prefix, returns the value and the
remaining bytes, or a `DecodeError`. -/
def Decoder (α : Type) : Type := List Nat → Except DecodeError (α × List Nat)

/-- Modelled from the spec: reading a fixed-width field (secret keys,
compressed pubkeys, 32-byte arrays, txids) consumes exactly its width,
failing with a short read otherwise. -/
def readBytesN (n : Nat) : Decoder (List Nat) := fun bs =>
  if n ≤ bs.length then .ok (bs.take n, bs.drop n) else .error .shortRead

/-- Modelled from the spec: a `u8` is one byte. -/
def readU8 : Decoder Nat := fun bs =>
  match bs with
  | [] => .error .shortRead
  | b :: rest => .ok (b, rest)

/-- Modelled from the spec: serialization-format multi-byte integers are
big-endian; a `u64` is 8 bytes. -/
def writeU64be (n : Nat) : List Nat := be64 n

/-- Modelled from the spec: big-endian `u64` decoding. -/
def readU64be : Decoder Nat := fun bs =>
  match bs with
  | b0 :: b1 :: b2 :: b3 :: b4 :: b5 :: b6 :: b7 :: rest =>
    .ok (b0 * 2 ^ 56 + b1 * 2 ^ 48 + b2 * 2 ^ 40 + b3 * 2 ^ 32 + b4 * 2 ^ 24 +
      b5 * 2 ^ 16 + b6 * 2 ^ 8 + b7, rest)
  | _ => .error .shortRead

/-- Modelled from the spec: `to_self_delay(2)` is a big-endian `u16`. -/
def writeU16be (n : Nat) : List Nat := [n / 2 ^ 8 % 256, n % 256]

/-- Modelled from the spec: big-endian `u16` decoding. -/
def readU16be : Decoder Nat := fun bs =>
  match bs with
  | b0 :: b1 :: rest => .ok (b0 * 2 ^ 8 + b1, rest)
  | _ => .error .shortRead

/-- Modelled from the spec: Bitcoin consensus integers are little-endian;
a `u32` (outpoint index) is 4 bytes. -/
def writeU32le (n : Nat) : List Nat :=
  [n % 256, n / 2 ^ 8 % 256, n / 2 ^ 16 % 256, n / 2 ^ 24 % 256]

/-- Modelled from the spec: little-endian `u32` decoding. -/
def readU32le : Decoder Nat := fun bs =>
  match bs with
  | b0 :: b1 :: b2 :: b3 :: rest =>
    .ok (b0 + b1 * 2 ^ 8 + b2 * 2 ^ 16 + b3 * 2 ^ 24, rest)
  | _ => .error .shortRead

/-- Modelled from the spec: little-endian `u64` (consensus output value). -/
def writeU64le (n : Nat) : List Nat :=
  [n % 256, n / 2 ^ 8 % 256, n / 2 ^ 16 % 256, n / 2 ^ 24 % 256,
   n / 2 ^ 32 % 256, n / 2 ^ 40 % 256, n / 2 ^ 48 % 256, n / 2 ^ 56 % 256]

/-- Modelled from the spec: little-endian `u64` decoding. -/
def readU64le : Decoder Nat := fun bs =>
  match bs with
  | b0 :: b1 :: b2 :: b3 :: b4 :: b5 :: b6 :: b7 :: rest =>
    .ok (b0 + b1 * 2 ^ 8 + b2 * 2 ^ 16 + b3 * 2 ^ 24 + b4 * 2 ^ 32 + b5 * 2 ^ 40 +
      b6 * 2 ^ 48 + b7 * 2 ^ 56, rest)
  | _ => .error .shortRead

/-- Modelled from the spec: Bitcoin consensus `CompactSize` length prefix. -/
def writeVarint (n : Nat) : List Nat :=
  if n < 253 then [n]
  else if n < 2 ^ 16 then 253 :: [n % 256, n / 2 ^ 8 % 256]
  else if n < 2 ^ 32 then 254 :: writeU32le n
  else 255 :: writeU64le n

/-- Modelled from the spec: `CompactSize` decoding. -/
def readVarint : Decoder Nat := fun bs =>
  match bs with
  | [] => .error .shortRead
  | b :: rest =>
    if b < 253 then .ok (b, rest)
    else if b = 253 then
      match rest with
      | b0 :: b1 :: r => .ok (b0 + b1 * 2 ^ 8, r)
      | _ => .error .shortRead
    else if b = 254 then readU32le rest
    else readU64le rest

/-- Modelled from the spec: a secret key serializes as its raw 32 bytes. -/
def writeSecKey (k : SecKey) : List Nat := k

/-- Modelled from the spec: secret-key decoding reads 32 bytes. -/
def readSecKey : Decoder SecKey := readBytesN 32

/-- Modelled from the spec: a public key serializes as 33 compressed bytes. -/
def writePubKey (p : PubKey) : List Nat := p

/-- Modelled from the spec: public-key decoding reads 33 bytes. -/
def readPubKey : Decoder PubKey := readBytesN 33

/-- Modelled from the spec: `ChannelPublicKeys` serializes its five
basepoints in declaration order, 33 bytes each. -/
def writeChannelPublicKeys (p : ChannelPublicKeys) : List Nat :=
  writePubKey p.funding_pubkey ++ writePubKey p.revocation_basepoint ++
  writePubKey p.payment_point ++ writePubKey p.delayed_payment_basepoint ++
  writePubKey p.htlc_basepoint

/-- Modelled from the spec: `ChannelPublicKeys` decoding. -/
def readChannelPublicKeys : Decoder ChannelPublicKeys := fun bs =>
  match readPubKey bs with
  | .error e => .error e
  | .ok (funding_pubkey, bs) =>
    match readPubKey bs with
    | .error e => .error e
    | .ok (revocation_basepoint, bs) =>
      match readPubKey bs with
      | .error e => .error e
      | .ok (payment_point, bs) =>
        match readPubKey bs with
        | .error e => .error e
        | .ok (delayed_payment_basepoint, bs) =>
          match readPubKey bs with
          | .error e => .error e
          | .ok (htlc_basepoint, bs) =>
            .ok ({ funding_pubkey, revocation_basepoint, payment_point,
                   delayed_payment_basepoint, htlc_basepoint }, bs)

/-- Modelled from the spec: an optional field is `0x00`, or `0x01` followed
by the payload; any other discriminant byte is `InvalidValue`. -/
def writeOptionCPK (o : Option ChannelPublicKeys) : List Nat :=
  match o with
  | none => [0]
  | some p => 1 :: writeChannelPublicKeys p

/-- Modelled from the spec: optional `ChannelPublicKeys` decoding. -/
def readOptionCPK : Decoder (Option ChannelPublicKeys) := fun bs =>
  match readU8 bs with
  | .error e => .error e
  | .ok (tag, bs) =>
    if tag = 0 then .ok (none, bs)
    else if tag = 1 then
      match readChannelPublicKeys bs with
      | .error e => .error e
      | .ok (p, bs) => .ok (some p, bs)
    else .error .invalidValue

/-- Modelled from the spec: an outpoint uses the standard Bitcoin consensus
serialization — 32-byte txid then little-endian `u32` index. -/
def writeOutPoint (o : OutPoint) : List Nat := o.txid ++ writeU32le o.vout

/-- Modelled from the spec: consensus outpoint decoding. -/
def readOutPoint : Decoder OutPoint := fun bs =>
  match readBytesN 32 bs with
  | .error e => .error e
  | .ok (txid, bs) =>
    match readU32le bs with
    | .error e => .error e
    | .ok (vout, bs) => .ok ({ txid, vout }, bs)

/-- Modelled from the spec: an output uses the standard Bitcoin consensus
serialization — little-endian `u64` value, then the scriptPubKey with a
`CompactSize` length prefix. -/
def writeTxOut (t : TxOut) : List Nat :=
  writeU64le t.value ++ writeVarint t.script_pubkey.length ++ t.script_pubkey

/-- Modelled from the spec: consensus output decoding. -/
def readTxOut : Decoder TxOut := fun bs =>
  match readU64le bs with
  | .error e => .error e
  | .ok (value, bs) =>
    match readVarint bs with
    | .error e => .error e
    | .ok (n, bs) =>
      match readBytesN n bs with
      | .error e => .error e
      | .ok (script_pubkey, bs) => .ok ({ value, script_pubkey }, bs)

/-- `Writeable for InMemoryChannelKeys`: the five secrets, the commitment
seed, the optional remote basepoints, the channel value and the two
derivation parameters — the local basepoints are not written. -/
def writeInMemoryChannelKeys (k : InMemoryChannelKeys) : List Nat :=
  writeSecKey k.funding_key ++ writeSecKey k.revocation_base_key ++
  writeSecKey k.payment_key ++ writeSecKey k.delayed_payment_base_key ++
  writeSecKey k.htlc_base_key ++ k.commitment_seed ++
  writeOptionCPK k.remote_channel_pubkeys ++
  writeU64be k.channel_value_satoshis ++
  writeU64be k.key_derivation_params.1 ++ writeU64be k.key_derivation_params.2

/-- `Readable for InMemoryChannelKeys`: reads the fields back in order and
recomputes the local basepoints from the deserialized secrets via
`make_local_keys` (they are not stored). -/
def readInMemoryChannelKeys (c : Crypto) : Decoder InMemoryChannelKeys := fun bs =>
  match readSecKey bs with
  | .error e => .error e
  | .ok (funding_key, bs) =>
    match readSecKey bs with
    | .error e => .error e
    | .ok (revocation_base_key, bs) =>
      match readSecKey bs with
      | .error e => .error e
      | .ok (payment_key, bs) =>
        match readSecKey bs with
        | .error e => .error e
        | .ok (delayed_payment_base_key, bs) =>
          match readSecKey bs with
          | .error e => .error e
          | .ok (htlc_base_key, bs) =>
            match readBytesN 32 bs with
            | .error e => .error e
            | .ok (commitment_seed, bs) =>
              match readOptionCPK bs with
              | .error e => .error e
              | .ok (remote_channel_pubkeys, bs) =>
                match readU64be bs with
                | .error e => .error e
                | .ok (channel_value_satoshis, bs) =>
                  match readU64be bs with
                  | .error e => .error e
                  | .ok (params_1, bs) =>
                    match readU64be bs with
                    | .error e => .error e
                    | .ok (params_2, bs) =>
                      .ok ({ funding_key, revocation_base_key, payment_key,
                             delayed_payment_base_key, htlc_base_key,
                             commitment_seed,
                             local_channel_pubkeys :=
                               make_local_keys c funding_key revocation_base_key
                                 payment_key delayed_payment_base_key htlc_base_key,
                             remote_channel_pubkeys, channel_value_satoshis,
                             key_derivation_params := (params_1, params_2) }, bs)

/-- `SpendableOutputDescriptor`: on-chain outputs the node may claim. -/
inductive SpendableOutputDescriptor where
  | StaticOutput (outpoint : OutPoint) (output : TxOut)
  | DynamicOutputP2WSH (outpoint : OutPoint) (per_commitment_point : PubKey)
      (to_self_delay : Nat) (output : TxOut) (key_derivation_params : Nat × Nat)
      (remote_revocation_pubkey : PubKey)
  | StaticOutputRemotePayment (outpoint : OutPoint) (output : TxOut)
      (key_derivation_params : Nat × Nat)
deriving Repr, DecidableEq

/-- `Writeable for SpendableOutputDescriptor`: a `u8` variant tag `0`, `1`
or `2` followed by the variant's fields in order. -/
def writeSpendableOutputDescriptor (d : SpendableOutputDescriptor) : List Nat :=
  match d with
  | .StaticOutput outpoint output =>
    0 :: writeOutPoint outpoint ++ writeTxOut output
  | .DynamicOutputP2WSH outpoint per_commitment_point to_self_delay output
      key_derivation_params remote_revocation_pubkey =>
    1 :: writeOutPoint outpoint ++ writePubKey per_commitment_point ++
    writeU16be to_self_delay ++ writeTxOut output ++
    writeU64be key_derivation_params.1 ++ writeU64be key_derivation_params.2 ++
    writePubKey remote_revocation_pubkey
  | .StaticOutputRemotePayment outpoint output key_derivation_params =>
    2 :: writeOutPoint outpoint ++ writeTxOut output ++
    writeU64be key_derivation_params.1 ++ writeU64be key_derivation_params.2

/-- `Readable for SpendableOutputDescriptor`: dispatch on the leading `u8`;
any tag other than `0`, `1`, `2` is `DecodeError::InvalidValue`. -/
def readSpendableOutputDescriptor : Decoder SpendableOutputDescriptor := fun bs =>
  match readU8 bs with
  | .error e => .error e
  | .ok (tag, bs) =>
    if tag = 0 then
      match readOutPoint bs with
      | .error e => .error e
      | .ok (outpoint, bs) =>
        match readTxOut bs with
        | .error e => .error e
        | .ok (output, bs) => .ok (.StaticOutput outpoint output, bs)
    else if tag = 1 then
      match readOutPoint bs with
      | .error e => .error e
      | .ok (outpoint, bs) =>
        match readPubKey bs with
        | .error e => .error e
        | .ok (per_commitment_point, bs) =>
          match readU16be bs with
          | .error e => .error e
          | .ok (to_self_delay, bs) =>
            match readTxOut bs with
            | .error e => .error e
            | .ok (output, bs) =>
              match readU64be bs with
              | .error e => .error e
              | .ok (params_1, bs) =>
                match readU64be bs with
                | .error e => .error e
                | .ok (params_2, bs) =>
                  match readPubKey bs with
                  | .error e => .error e
                  | .ok (remote_revocation_pubkey, bs) =>
                    .ok (.DynamicOutputP2WSH outpoint per_commitment_point
                      to_self_delay output (params_1, params_2)
                      remote_revocation_pubkey, bs)
    else if tag = 2 then
      match readOutPoint bs with
      | .error e => .error e
      | .ok (outpoint, bs) =>
        match readTxOut bs with
        | .error e => .error e
        | .ok (output, bs) =>
          match readU64be bs with
          | .error e => .error e
          | .ok (params_1, bs) =>
            match readU64be bs with
            | .error e => .error e
            | .ok (params_2, bs) =>
              .ok (.StaticOutputRemotePayment outpoint output (params_1, params_2), bs)
    else .error .invalidValue

/-- One invocation of a `ChannelKeys` trait method on a signer, with its
arguments. `&self` methods leave the signer unchanged; only
`set_remote_channel_pubkeys` takes `&mut self`. -/
inductive SignerOp where
  | opSetRemote (ps : ChannelPublicKeys)
  | opSignRemoteCommitment (feerate_per_kw : Nat) (tx : Transaction)
      (keys : TxCreationKeys) (htlcs : List HTLCOutputInCommitment) (to_self_delay : Nat)
  | opSignLocalCommitment (ltx : LocalCommitmentTx)
  | opSignLocalHtlcs (ltx : LocalCommitmentTx) (local_csv : Nat)
  | opSignJustice (tx : Transaction) (input : Nat) (amount : Nat)
      (per_commitment_key : SecKey) (htlc : Option HTLCOutputInCommitment) (csv : Nat)
  | opSignRemoteHtlc (tx : Transaction) (input : Nat) (amount : Nat)
      (per_commitment_point : PubKey) (htlc : HTLCOutputInCommitment)
  | opSignClosing (tx : Transaction)
  | opSignAnnouncement (msg : UnsignedChannelAnnouncement)
  | opObserve

/-- Forget a signing result, keeping only whether it panicked: a signer
surviving an operation is unchanged unless the operation was
`set_remote_channel_pubkeys`. -/
def keepState {α : Type} (k : InMemoryChannelKeys) : Res α → Res InMemoryChannelKeys
  | .ok _ => .ok k
  | .err => .ok k
  | .fatal => .fatal

/-- Execute one `ChannelKeys` operation, producing the signer state after
it (or `.fatal` if it panicked). -/
def stepSigner (c : Crypto) (k : InMemoryChannelKeys) : SignerOp → Res InMemoryChannelKeys
  | .opSetRemote ps => set_remote_channel_pubkeys k ps
  | .opSignRemoteCommitment f tx keys htlcs d =>
    keepState k (sign_remote_commitment c k f tx keys htlcs d)
  | .opSignLocalCommitment ltx => keepState k (sign_local_commitment c k ltx)
  | .opSignLocalHtlcs ltx csv =>
    keepState k (sign_local_commitment_htlc_transactions c k ltx csv)
  | .opSignJustice tx i a pck h csv =>
    keepState k (sign_justice_transaction c k tx i a pck h csv)
  | .opSignRemoteHtlc tx i a pcp h =>
    keepState k (sign_remote_htlc_transaction c k tx i a pcp h)
  | .opSignClosing tx => keepState k (sign_closing_transaction c k tx)
  | .opSignAnnouncement msg => keepState k (sign_channel_announcement c k msg)
  | .opObserve => .ok k

/-- Execute a sequence of `ChannelKeys` operations; a panic aborts. -/
def runSigner (c : Crypto) (k : InMemoryChannelKeys) : List SignerOp → Res InMemoryChannelKeys
  | [] => .ok k
  | op :: ops =>
    match stepSigner c k op with
    | .ok k' => runSigner c k' ops
    | .err => .err
    | .fatal => .fatal

/-- The spec's `derive_channel_keys` algorithm, transcribed step by step
from the natural-language description (§4.1 item by item: extract
`chan_id` from the high 32 bits, hash `be64(params_2) || be32(low 32 bits
of params_1) || seed || child_privkey` into `seed32`, compute
`commitment_seed`, then chain the five labelled scalars) — for comparison
against the implementation. -/
def derive_channel_keys_ofSpec (c : Crypto) (km : KeysManager)
    (channel_value : Nat) (params_1 params_2 : Nat) : Res InMemoryChannelKeys :=
  let chan_id := params_1 / 2 ^ 32 % 2 ^ 32
  if chan_id < 2 ^ 31 then
    match c.ckdPriv km.channel_master_key chan_id with
    | none => .fatal
    | some child =>
      let seed32 := c.sha256 (be64 params_2 ++ be32 (params_1 % 2 ^ 32) ++ km.seed
        ++ child.privKey)
      let commitment_seed := c.sha256 (seed32 ++ strBytes ("commitment seed"))
      let chain := fun (prev : List Nat) (label : String) =>
        c.sha256 (seed32 ++ prev ++ strBytes label)
      let s1 := chain commitment_seed ("funding key")
      let s2 := chain s1 ("revocation base key")
      let s3 := chain s2 ("payment key")
      let s4 := chain s3 ("delayed payment base key")
      let s5 := chain s4 ("HTLC base key")
      if c.secValid s1 && c.secValid s2 && c.secValid s3 && c.secValid s4
          && c.secValid s5 then
        .ok { funding_key := s1, revocation_base_key := s2, payment_key := s3,
              delayed_payment_base_key := s4, htlc_base_key := s5,
              commitment_seed,
              local_channel_pubkeys := make_local_keys c s1 s2 s3 s4 s5,
              remote_channel_pubkeys := none,
              channel_value_satoshis := channel_value,
              key_derivation_params := (params_1, params_2) }
      else .fatal
  else .fatal

/-- The spec's field layout for variant `0` (`StaticOutput`): outpoint then
output. -/
def readStaticOutputBody : Decoder SpendableOutputDescriptor := fun bs =>
  match readOutPoint bs with
  | .error e => .error e
  | .ok (outpoint, bs) =>
    match readTxOut bs with
    | .error e => .error e
    | .ok (output, bs) => .ok (.StaticOutput outpoint output, bs)

/-- The spec's field layout for variant `1` (`DynamicOutputP2WSH`):
outpoint, 33-byte per-commitment point, 2-byte delay, output, the two
8-byte derivation parameters, 33-byte remote revocation pubkey. -/
def readDynamicOutputP2WSHBody : Decoder SpendableOutputDescriptor := fun bs =>
  match readOutPoint bs with
  | .error e => .error e
  | .ok (outpoint, bs) =>
    match readPubKey bs with
    | .error e => .error e
    | .ok (per_commitment_point, bs) =>
      match readU16be bs with
      | .error e => .error e
      | .ok (to_self_delay, bs) =>
        match readTxOut bs with
        | .error e => .error e
        | .ok (output, bs) =>
          match readU64be bs with
          | .error e => .error e
          | .ok (params_1, bs) =>
            match readU64be bs with
            | .error e => .error e
            | .ok (params_2, bs) =>
              match readPubKey bs with
              | .error e => .error e
              | .ok (remote_revocation_pubkey, bs) =>
                .ok (.DynamicOutputP2WSH outpoint per_commitment_point to_self_delay
                  output (params_1, params_2) remote_revocation_pubkey, bs)

/-- The spec's field layout for variant `2` (`StaticOutputRemotePayment`):
outpoint, output, the two 8-byte derivation parameters. -/
def readStaticOutputRemotePaymentBody : Decoder SpendableOutputDescriptor := fun bs =>
  match readOutPoint bs with
  | .error e => .error e
  | .ok (outpoint, bs) =>
    match readTxOut bs with
    | .error e => .error e
    | .ok (output, bs) =>
      match readU64be bs with
      | .error e => .error e
      | .ok (params_1, bs) =>
        match readU64be bs with
        | .error e => .error e
        | .ok (params_2, bs) =>
          .ok (.StaticOutputRemotePayment outpoint output (params_1, params_2), bs)

/-- A concrete instantiation of the abstract primitives, used to evaluate
the theorems at explicit inputs: hashing pads/truncates to 32 bytes,
public keys are a tag byte over the secret, every derivation succeeds. -/
def trivCrypto : Crypto where
  sha256 := fun l => (l ++ List.replicate 32 0).take 32
  fromSecret := fun s => 2 :: (s ++ List.replicate 32 0).take 32
  secValid := fun _ => true
  sign := fun m k => m ++ k
  newMaster := fun _ s => some ⟨(s ++ List.replicate 32 0).take 32, List.replicate 32 1⟩
  ckdPriv := fun k i => some ⟨(i % 256) :: k.privKey.take 31, k.chainCode⟩
  hash160 := fun l => (l ++ List.replicate 20 0).take 20
  sighashAll := fun _ txin script amount => txin.prevTxid ++ script ++ be64 amount
  txid := fun tx => (tx.input.headD default).prevTxid
  makeFundingRedeemscript := fun a b => 82 :: a ++ b ++ [82, 174]
  buildHtlcTransaction := fun txid _ _ _ _ _ => { input := [⟨txid, 0, []⟩], output := [] }
  getHtlcRedeemscript := fun _ keys => keys.revocation_key
  getHtlcRedeemscriptExplicit := fun _ a b r => a ++ b ++ r
  getRevokeableRedeemscript := fun r csv d => r ++ be32 csv ++ d
  derivePrivateKey := fun point base => some (point ++ base)
  derivePrivateRevocationKey := fun sec base => some (sec ++ base)
  derivePublicKey := fun point base => some (point ++ base)
  derivePublicRevocationKey := fun point base => some (point ++ base)
  getLocalSig := fun ltx k script v => ltx.data ++ k ++ script ++ be64 v
  getHtlcSigs := fun ltx k _ => some [some (ltx.data ++ k), none]
  encodeAnnouncement := fun msg => msg.data

/-- A 32-byte example secret filled with one byte value. -/
def exSecret (b : Nat) : SecKey := List.replicate 32 b

/-- An example remote basepoint set. -/
def exRemote : ChannelPublicKeys :=
  { funding_pubkey := 3 :: List.replicate 32 9,
    revocation_basepoint := 3 :: List.replicate 32 10,
    payment_point := 3 :: List.replicate 32 11,
    delayed_payment_basepoint := 3 :: List.replicate 32 12,
    htlc_basepoint := 3 :: List.replicate 32 13 }

/-- An example signer fresh from `InMemoryChannelKeys::new` (no remote
basepoints). -/
def exKeysFresh : InMemoryChannelKeys :=
  InMemoryChannelKeys.new trivCrypto (exSecret 1) (exSecret 2) (exSecret 3)
    (exSecret 4) (exSecret 5) (List.replicate 32 6) 100000 (7, 8)

/-- The example signer after its remote basepoints were set. -/
def exKeysBound : InMemoryChannelKeys :=
  { exKeysFresh with remote_channel_pubkeys := some exRemote }

/-- A structurally valid closing transaction: one input with empty witness
and two outputs. -/
def exClosingTx : Transaction :=
  { input := [⟨List.replicate 32 7, 0, []⟩],
    output := [⟨60000, [0, 20]⟩, ⟨39000, [0, 21]⟩] }

/-- A `keepState`-wrapped operation that succeeds or errs leaves the signer
unchanged. -/
theorem keepState_ok {α : Type} (k k' : InMemoryChannelKeys) (r : Res α)
    (h : keepState k r = .ok k') : k' = k := by
  cases r <;> simp [keepState] at h <;> exact h.symm

/-- A single trait-method step never changes `remote_channel_pubkeys` once
it is `some p`: every `&self` method leaves the signer unchanged and
`set_remote_channel_pubkeys` panics on an already-set field. -/
theorem stepSigner_remote_mono (c : Crypto) (k k' : InMemoryChannelKeys)
    (op : SignerOp) (p : ChannelPublicKeys) (h : stepSigner c k op = .ok k')
    (hp : k.remote_channel_pubkeys = some p) :
    k'.remote_channel_pubkeys = some p := by
  cases op with
  | opSetRemote ps => simp [stepSigner, set_remote_channel_pubkeys, hp] at h
  | opSignRemoteCommitment f tx keys htlcs d =>
    rw [keepState_ok k k' _ h]; exact hp
  | opSignLocalCommitment ltx => rw [keepState_ok k k' _ h]; exact hp
  | opSignLocalHtlcs ltx csv => rw [keepState_ok k k' _ h]; exact hp
  | opSignJustice tx i a pck htlc csv => rw [keepState_ok k k' _ h]; exact hp
  | opSignRemoteHtlc tx i a pcp htlc => rw [keepState_ok k k' _ h]; exact hp
  | opSignClosing tx => rw [keepState_ok k k' _ h]; exact hp
  | opSignAnnouncement msg =>
    simp only [stepSigner] at h
    rw [keepState_ok k k' _ h]; exact hp
  | opObserve =>
    simp [stepSigner] at h; rw [← h]; exact hp

/-- Once set, the remote basepoints survive any successful operation
sequence unchanged. -/
theorem runSigner_remote_mono (c : Crypto) (ops : List SignerOp) :
    ∀ (k k' : InMemoryChannelKeys) (p : ChannelPublicKeys),
    runSigner c k ops = .ok k' → k.remote_channel_pubkeys = some p →
    k'.remote_channel_pubkeys = some p := by
  induction ops with
  | nil =>
    intro k k' p h hp
    simp [runSigner] at h; rw [← h]; exact hp
  | cons op ops ih =>
    intro k k' p h hp
    rw [runSigner] at h
    cases hs : stepSigner c k op with
    | ok k1 =>
      rw [hs] at h
      exact ih k1 k' p h (stepSigner_remote_mono c k k1 op p hs hp)
    | err => rw [hs] at h; exact absurd h (by simp)
    | fatal => rw [hs] at h; exact absurd h (by simp)

/-- C3: `set_remote_channel_pubkeys` requires `remote_channel_pubkeys =
None` and then sets it to `Some` of the given keys; a second call (field
already `Some`) hits the `assert!` and is fatal; no other trait operation
changes the field (every `&self` method leaves the signer unchanged), so
along any successful operation sequence the field transitions from absent
to present at most once. -/
theorem C3_set_remote_one_shot :
    (∀ (k : InMemoryChannelKeys) (ps : ChannelPublicKeys),
      k.remote_channel_pubkeys = none →
      set_remote_channel_pubkeys k ps =
        .ok { k with remote_channel_pubkeys := some ps }) ∧
    (∀ (k : InMemoryChannelKeys) (ps q : ChannelPublicKeys),
      k.remote_channel_pubkeys = some q →
      set_remote_channel_pubkeys k ps = .fatal) ∧
    (∀ (c : Crypto) (k k' : InMemoryChannelKeys) (op : SignerOp),
      (∀ ps, op ≠ .opSetRemote ps) → stepSigner c k op = .ok k' → k' = k) ∧
    (∀ (c : Crypto) (ops : List SignerOp) (k k' : InMemoryChannelKeys)
      (p : ChannelPublicKeys),
      runSigner c k ops = .ok k' → k.remote_channel_pubkeys = some p →
      k'.remote_channel_pubkeys = some p) := by
  refine ⟨?_, ?_, ?_, ?_⟩
  · intro k ps h; simp [set_remote_channel_pubkeys, h]
  · intro k ps q h; simp [set_remote_channel_pubkeys, h]
  · intro c k k' op hop h
    cases op with
    | opSetRemote ps => exact absurd rfl (hop ps)
    | opSignRemoteCommitment f tx keys htlcs d => exact keepState_ok k k' _ h
    | opSignLocalCommitment ltx => exact keepState_ok k k' _ h
    | opSignLocalHtlcs ltx csv => exact keepState_ok k k' _ h
    | opSignJustice tx i a pck htlc csv => exact keepState_ok k k' _ h
    | opSignRemoteHtlc tx i a pcp htlc => exact keepState_ok k k' _ h
    | opSignClosing tx => exact keepState_ok k k' _ h
    | opSignAnnouncement msg =>
      simp only [stepSigner] at h
      exact keepState_ok k k' _ h
    | opObserve => simp [stepSigner] at h; exact h.symm
  · intro c ops k k' p h hp; exact runSigner_remote_mono c ops k k' p h hp

/-- C3 witness: both transitions evaluated on the example signer, and a
sequence set-then-sign preserving the set basepoints. -/
theorem C3_set_remote_one_shot_witness :
    set_remote_channel_pubkeys exKeysFresh exRemote = .ok exKeysBound ∧
    set_remote_channel_pubkeys exKeysBound exRemote = .fatal ∧
    exKeysBound.remote_channel_pubkeys = some exRemote := by
  refine ⟨?_, ?_, rfl⟩
  · exact C3_set_remote_one_shot.1 exKeysFresh exRemote rfl
  · exact C3_set_remote_one_shot.2.1 exKeysBound exRemote exRemote rfl

/-- C4: with remote basepoints set, `sign_closing_transaction` errs exactly
when the input count is not 1, input 0's witness is non-empty, or there
are more than two outputs; otherwise it returns the funding-key signature
over the BIP-143 sighash of input 0 with the 2-of-2 funding redeem script
and `channel_value_satoshis`. -/
theorem C4_sign_closing_gates (c : Crypto) (k : InMemoryChannelKeys)
    (r : ChannelPublicKeys) (tx : Transaction)
    (h : k.remote_channel_pubkeys = some r) :
    sign_closing_transaction c k tx =
      if tx.input.length = 1 ∧ tx.input.headI.witness = [] ∧ tx.output.length ≤ 2 then
        .ok (c.sign (c.sighashAll tx tx.input.headI
          (c.makeFundingRedeemscript (c.fromSecret k.funding_key) r.funding_pubkey)
          k.channel_value_satoshis) k.funding_key)
      else .err := by
  rcases htx : tx.input with _ | ⟨a, _ | ⟨b, t⟩⟩
  · simp [sign_closing_transaction, htx]
  · by_cases hw : a.witness = []
    · by_cases ho : tx.output.length ≤ 2
      · simp [sign_closing_transaction, htx, hw, h, List.headI, Nat.not_lt.mpr ho, ho]
      · simp [sign_closing_transaction, htx, hw, h, List.headI, Nat.lt_of_not_le ho, ho]
    · have hw' : a.witness.length ≠ 0 := by
        simpa [List.length_eq_zero] using hw
      simp [sign_closing_transaction, htx, hw, hw', List.headI]
  · simp [sign_closing_transaction, htx]

/-- C4 witness: the gate evaluated on the example bound signer at a valid
closing transaction (and implicitly at the compile-time-checked branch). -/
theorem C4_sign_closing_gates_witness :
    exKeysBound.remote_channel_pubkeys = some exRemote ∧
    sign_closing_transaction trivCrypto exKeysBound exClosingTx =
      (if exClosingTx.input.length = 1 ∧ exClosingTx.input.headI.witness = [] ∧
          exClosingTx.output.length ≤ 2 then
        .ok (trivCrypto.sign (trivCrypto.sighashAll exClosingTx exClosingTx.input.headI
          (trivCrypto.makeFundingRedeemscript
            (trivCrypto.fromSecret exKeysBound.funding_key) exRemote.funding_pubkey)
          exKeysBound.channel_value_satoshis) exKeysBound.funding_key)
      else .err) :=
  ⟨rfl, C4_sign_closing_gates trivCrypto exKeysBound exRemote exClosingTx rfl⟩

/-- C2 counterexample: the remote basepoints are unset and the closing
transaction passes every structural check, yet `sign_closing_transaction`
panics (the `expect` on `remote_channel_pubkeys`) instead of returning an
`Err` to the caller. -/
theorem C2_cex_fatal_not_err :
    exKeysFresh.remote_channel_pubkeys = none ∧
    sign_closing_transaction trivCrypto exKeysFresh exClosingTx = Res.fatal ∧
    sign_closing_transaction trivCrypto exKeysFresh exClosingTx ≠ Res.err := by
  refine ⟨rfl, by decide, by decide⟩

/-- C2 (amended): if `remote_channel_pubkeys` is unset, every signing
operation that needs it fails, but via panic (`expect`/`unwrap`), not via
an `Err` result: once the structural pre-checks that precede the access
pass (and key derivation succeeds on the justice/remote-HTLC paths), the
operation is fatal; in particular it never returns `Ok`. -/
theorem C2_missing_remote_is_fatal (c : Crypto) (k : InMemoryChannelKeys)
    (h : k.remote_channel_pubkeys = none) :
    (∀ f tx keys htlcs d in0, tx.input = [in0] →
      sign_remote_commitment c k f tx keys htlcs d = .fatal) ∧
    (∀ ltx, sign_local_commitment c k ltx = .fatal) ∧
    (∀ tx in0, tx.input = [in0] → in0.witness = [] → tx.output.length ≤ 2 →
      sign_closing_transaction c k tx = .fatal) ∧
    (∀ tx i a pck htlc csv rk rp,
      c.derivePrivateRevocationKey pck k.revocation_base_key = some rk →
      c.derivePublicRevocationKey (c.fromSecret pck)
        k.local_channel_pubkeys.revocation_basepoint = some rp →
      sign_justice_transaction c k tx i a pck htlc csv = .fatal) ∧
    (∀ tx i a pcp htlc hk rp,
      c.derivePrivateKey pcp k.htlc_base_key = some hk →
      c.derivePublicRevocationKey pcp
        k.local_channel_pubkeys.revocation_basepoint = some rp →
      sign_remote_htlc_transaction c k tx i a pcp htlc = .fatal) := by
  refine ⟨?_, ?_, ?_, ?_, ?_⟩
  · intro f tx keys htlcs d in0 htx
    simp [sign_remote_commitment, htx, h]
  · intro ltx; simp [sign_local_commitment, h]
  · intro tx in0 htx hw ho
    simp [sign_closing_transaction, htx, hw, h, Nat.not_lt.mpr ho]
  · intro tx i a pck htlc csv rk rp h1 h2
    cases htlc <;> simp [sign_justice_transaction, h1, h2, h]
  · intro tx i a pcp htlc hk rp h1 h2
    simp [sign_remote_htlc_transaction, h1, h2, h]

/-- C2 (amended) witness: evaluated on the fresh example signer. -/
theorem C2_missing_remote_is_fatal_witness :
    exKeysFresh.remote_channel_pubkeys = none ∧
    sign_local_commitment trivCrypto exKeysFresh ⟨[1, 2]⟩ = Res.fatal :=
  ⟨rfl, (C2_missing_remote_is_fatal trivCrypto exKeysFresh rfl).2.1 ⟨[1, 2]⟩⟩

/-- C10: `sign_justice_transaction` and `sign_remote_htlc_transaction` do
not validate the transaction shape: once key derivation succeeds (the
public-key derivations are probability-1 events, taken as hypotheses on
the primitives), an in-range `input` yields `Ok` and an out-of-range
`input` reaches the `tx.input[input]` indexing and panics — `Err(())` is
never the outcome of an out-of-range index or wrong input count. -/
theorem C10_no_structural_validation (c : Crypto) (k : InMemoryChannelKeys)
    (r : ChannelPublicKeys) (h : k.remote_channel_pubkeys = some r)
    (hPub : ∀ p b, (c.derivePublicKey p b).isSome = true)
    (hRev : ∀ p b, (c.derivePublicRevocationKey p b).isSome = true) :
    (∀ tx input amount pck htlc csv,
      (c.derivePrivateRevocationKey pck k.revocation_base_key).isSome = true →
      (tx.input.length ≤ input →
        sign_justice_transaction c k tx input amount pck htlc csv = .fatal) ∧
      (input < tx.input.length →
        ∃ s, sign_justice_transaction c k tx input amount pck htlc csv = .ok s)) ∧
    (∀ tx input amount pcp htlc,
      (c.derivePrivateKey pcp k.htlc_base_key).isSome = true →
      (tx.input.length ≤ input →
        sign_remote_htlc_transaction c k tx input amount pcp htlc = .fatal) ∧
      (input < tx.input.length →
        ∃ s, sign_remote_htlc_transaction c k tx input amount pcp htlc = .ok s)) := by
  constructor
  · intro tx input amount pck htlc csv hpriv
    obtain ⟨rk, hrk⟩ := Option.isSome_iff_exists.mp hpriv
    obtain ⟨rp, hrp⟩ := Option.isSome_iff_exists.mp
      (hRev (c.fromSecret pck) k.local_channel_pubkeys.revocation_basepoint)
    constructor
    · intro hlen
      have hg : tx.input[input]? = none := List.getElem?_eq_none hlen
      cases htlc with
      | none =>
        obtain ⟨dp, hdp⟩ := Option.isSome_iff_exists.mp
          (hPub (c.fromSecret pck) r.delayed_payment_basepoint)
        simp [sign_justice_transaction, hrk, hrp, h, hdp, hg]
      | some hh =>
        obtain ⟨rh, hrh⟩ := Option.isSome_iff_exists.mp
          (hPub (c.fromSecret pck) r.htlc_basepoint)
        obtain ⟨lh, hlh⟩ := Option.isSome_iff_exists.mp
          (hPub (c.fromSecret pck) k.local_channel_pubkeys.htlc_basepoint)
        simp [sign_justice_transaction, hrk, hrp, h, hrh, hlh, hg]
    · intro hlen
      have hg : tx.input[input]? = some (tx.input.get ⟨input, hlen⟩) :=
        List.getElem?_eq_getElem hlen
      cases htlc with
      | none =>
        obtain ⟨dp, hdp⟩ := Option.isSome_iff_exists.mp
          (hPub (c.fromSecret pck) r.delayed_payment_basepoint)
        exact ⟨_, by simp [sign_justice_transaction, hrk, hrp, h, hdp, hg]; rfl⟩
      | some hh =>
        obtain ⟨rh, hrh⟩ := Option.isSome_iff_exists.mp
          (hPub (c.fromSecret pck) r.htlc_basepoint)
        obtain ⟨lh, hlh⟩ := Option.isSome_iff_exists.mp
          (hPub (c.fromSecret pck) k.local_channel_pubkeys.htlc_basepoint)
        exact ⟨_, by simp [sign_justice_transaction, hrk, hrp, h, hrh, hlh, hg]; rfl⟩
  · intro tx input amount pcp htlc hpriv
    obtain ⟨hk, hhk⟩ := Option.isSome_iff_exists.mp hpriv
    obtain ⟨rp, hrp⟩ := Option.isSome_iff_exists.mp
      (hRev pcp k.local_channel_pubkeys.revocation_basepoint)
    obtain ⟨rh, hrh⟩ := Option.isSome_iff_exists.mp (hPub pcp r.htlc_basepoint)
    obtain ⟨lh, hlh⟩ := Option.isSome_iff_exists.mp
      (hPub pcp k.local_channel_pubkeys.htlc_basepoint)
    constructor
    · intro hlen
      have hg : tx.input[input]? = none := List.getElem?_eq_none hlen
      simp [sign_remote_htlc_transaction, hhk, hrp, h, hrh, hlh, hg]
    · intro hlen
      have hg : tx.input[input]? = some (tx.input.get ⟨input, hlen⟩) :=
        List.getElem?_eq_getElem hlen
      exact ⟨_, by simp [sign_remote_htlc_transaction, hhk, hrp, h, hrh, hlh, hg]; rfl⟩

/-- C10 witness: the justice path on the example bound signer with an
out-of-range input index panics, and with an in-range one succeeds. -/
theorem C10_no_structural_validation_witness :
    sign_justice_transaction trivCrypto exKeysBound exClosingTx 5 1000
      (exSecret 14) none 144 = Res.fatal ∧
    ∃ s, sign_justice_transaction trivCrypto exKeysBound exClosingTx 0 1000
      (exSecret 14) none 144 = Res.ok s := by
  constructor
  · exact ((C10_no_structural_validation trivCrypto exKeysBound exRemote rfl
      (fun p b => rfl) (fun p b => rfl)).1 exClosingTx 5 1000 (exSecret 14) none 144
      rfl).1 (by decide)
  · exact ((C10_no_structural_validation trivCrypto exKeysBound exRemote rfl
      (fun p b => rfl) (fun p b => rfl)).1 exClosingTx 0 1000 (exSecret 14) none 144
      rfl).2 (by decide)

/-- C1: `derive_channel_keys` computes exactly the spec's algorithm — it is
a pure function of the root and parameters (stated as an unconditional
equation, so byte-identical results across calls are immediate): `chan_id`
is the high 32 bits of `params_1`; `seed32` hashes `be64(params_2) ||
be32(low 32 bits of params_1) || seed || child privkey of
`channel_master_key/chan_id'`; `commitment_seed = SHA256(seed32 ||
"commitment seed")`; the five scalars chain with the labels in order
"funding key", "revocation base key", "payment key", "delayed payment
base key", "HTLC base key"; and the result holds those scalars,
`commitment_seed`, the channel value, `(params_1, params_2)`, and local
basepoints that are the secp256k1 public keys of the five scalars. -/
theorem C1_derive_channel_keys_algorithm (c : Crypto) (km : KeysManager)
    (channel_value_satoshis params_1 params_2 : Nat) :
    derive_channel_keys c km channel_value_satoshis params_1 params_2 =
      derive_channel_keys_ofSpec c km channel_value_satoshis params_1 params_2 := by
  unfold derive_channel_keys derive_channel_keys_ofSpec
  dsimp only
  split
  · cases hc : c.ckdPriv km.channel_master_key (params_1 / 2 ^ 32 % 2 ^ 32) with
    | none => rfl
    | some child =>
      simp only [hc, InMemoryChannelKeys.new, make_local_keys, List.append_assoc]
  · rfl

/-- C9: `SpendableOutputDescriptor::read` returns
`Err(DecodeError::InvalidValue)` on every stream whose first byte is not
`0`, `1` or `2`, and on those tags parses exactly the `StaticOutput`,
`DynamicOutputP2WSH` and `StaticOutputRemotePayment` field layouts (the
per-variant decoders), propagating field-level decode errors. -/
theorem C9_read_descriptor_dispatch :
    (∀ b rest, b ≠ 0 → b ≠ 1 → b ≠ 2 →
      readSpendableOutputDescriptor (b :: rest) = .error .invalidValue) ∧
    (∀ rest, readSpendableOutputDescriptor (0 :: rest) = readStaticOutputBody rest) ∧
    (∀ rest, readSpendableOutputDescriptor (1 :: rest) =
      readDynamicOutputP2WSHBody rest) ∧
    (∀ rest, readSpendableOutputDescriptor (2 :: rest) =
      readStaticOutputRemotePaymentBody rest) := by
  refine ⟨?_, ?_, ?_, ?_⟩
  · intro b rest h0 h1 h2
    simp [readSpendableOutputDescriptor, readU8, h0, h1, h2]
  · intro rest
    simp [readSpendableOutputDescriptor, readU8, readStaticOutputBody]
  · intro rest
    simp [readSpendableOutputDescriptor, readU8, readDynamicOutputP2WSHBody]
  · intro rest
    simp [readSpendableOutputDescriptor, readU8, readStaticOutputRemotePaymentBody]

/-- C9 witness: tag byte `3` is rejected as `InvalidValue`; tag byte `0`
over an empty remainder propagates the field-level short read. -/
theorem C9_read_descriptor_dispatch_witness :
    readSpendableOutputDescriptor [3] = .error .invalidValue ∧
    readSpendableOutputDescriptor [0] = .error .shortRead :=
  ⟨C9_read_descriptor_dispatch.1 3 [] (by decide) (by decide) (by decide),
   by rw [C9_read_descriptor_dispatch.2.1 []]; rfl⟩

/-- A successfully derived signer records exactly the parameters it was
derived from. -/
theorem derive_channel_keys_params (c : Crypto) (km : KeysManager)
    (v p1 p2 : Nat) (k : InMemoryChannelKeys)
    (h : derive_channel_keys c km v p1 p2 = .ok k) :
    k.key_derivation_params = (p1, p2) := by
  unfold derive_channel_keys at h
  dsimp only at h
  split at h
  · split at h
    · exact absurd h (by simp)
    · split at h
      · cases h; rfl
      · exact absurd h (by simp)
  · exact absurd h (by simp)

/-- In `get_channel_keys`, `(child_ix as u64) << 32 | nanos` equals
`(child_ix % 2^32) * 2^32 + nanos` whenever `nanos` fits in 32 bits. -/
theorem ix_and_nanos_eq (ci n : Nat) (hn : n < 2 ^ 32) :
    Nat.lor ((ci % 2 ^ 64) * 2 ^ 32 % 2 ^ 64) n = (ci % 2 ^ 32) * 2 ^ 32 + n := by
  have h1 : (ci % 2 ^ 64) * 2 ^ 32 % 2 ^ 64 = (ci % 2 ^ 32) * 2 ^ 32 := by omega
  rw [h1, mul_comm]
  simpa using (Nat.mul_add_lt_is_or hn (ci % 2 ^ 32)).symm

/-- C7: `get_channel_keys` fetch-adds the channel counter, returns exactly
`derive_channel_keys(value, (chan_id << 32) | nanos, secs)`, ignores the
`inbound` flag, and across distinct non-exhausted counter states the
derivation parameters of the produced signers are pairwise distinct with
the high 32 bits of `params_1` equal to the counter value at allocation. -/
theorem C7_get_channel_keys_allocation (c : Crypto) (km : KeysManager)
    (v : Nat) (hn : km.starting_time_nanos < 2 ^ 32) :
    (∀ inbound, get_channel_keys c km inbound v =
      (derive_channel_keys c km v
        ((km.channel_child_index % 2 ^ 32) * 2 ^ 32 + km.starting_time_nanos)
        km.starting_time_secs,
       { km with channel_child_index := km.channel_child_index + 1 })) ∧
    (get_channel_keys c km true v = get_channel_keys c km false v) ∧
    (∀ i inbound ki, i < 2 ^ 31 →
      (get_channel_keys c { km with channel_child_index := i } inbound v).1 = .ok ki →
      ki.key_derivation_params.1 / 2 ^ 32 % 2 ^ 32 = i) ∧
    (∀ i j inb1 inb2 ki kj, i < 2 ^ 31 → j < 2 ^ 31 → i ≠ j →
      (get_channel_keys c { km with channel_child_index := i } inb1 v).1 = .ok ki →
      (get_channel_keys c { km with channel_child_index := j } inb2 v).1 = .ok kj →
      ki.key_derivation_params ≠ kj.key_derivation_params) := by
  have hexp : ∀ (i : Nat) (inbound : Bool),
      (get_channel_keys c { km with channel_child_index := i } inbound v).1 =
        derive_channel_keys c km v
          ((i % 2 ^ 32) * 2 ^ 32 + km.starting_time_nanos) km.starting_time_secs := by
    intro i inbound
    show derive_channel_keys c { km with channel_child_index := i } v
      (Nat.lor ((i % 2 ^ 64) * 2 ^ 32 % 2 ^ 64) km.starting_time_nanos)
      km.starting_time_secs = _
    rw [ix_and_nanos_eq i km.starting_time_nanos hn]
    rfl
  refine ⟨?_, rfl, ?_, ?_⟩
  · intro inbound
    show (derive_channel_keys c km v
      (Nat.lor ((km.channel_child_index % 2 ^ 64) * 2 ^ 32 % 2 ^ 64)
        km.starting_time_nanos) km.starting_time_secs, _) = _
    rw [ix_and_nanos_eq km.channel_child_index km.starting_time_nanos hn]
  · intro i inbound ki hi hok
    rw [hexp i inbound] at hok
    have hp := derive_channel_keys_params c km v _ _ ki hok
    rw [hp]
    simp only []
    omega
  · intro i j inb1 inb2 ki kj hi hj hij hoki hokj
    rw [hexp i inb1] at hoki
    rw [hexp j inb2] at hokj
    have hpi := derive_channel_keys_params c km v _ _ ki hoki
    have hpj := derive_channel_keys_params c km v _ _ kj hokj
    rw [hpi, hpj]
    intro hcontra
    have h1 : (i % 2 ^ 32) * 2 ^ 32 + km.starting_time_nanos =
        (j % 2 ^ 32) * 2 ^ 32 + km.starting_time_nanos := by
      exact congrArg Prod.fst hcontra
    omega

/-- An example `KeysManager` state with concrete master keys and nonce. -/
def exKM : KeysManager :=
  { node_secret := exSecret 1, destination_script := [0, 20],
    shutdown_pubkey := 2 :: exSecret 3,
    channel_master_key := ⟨exSecret 4, exSecret 5⟩, channel_child_index := 0,
    session_master_key := ⟨exSecret 6, exSecret 7⟩, session_child_index := 0,
    channel_id_master_key := ⟨exSecret 8, exSecret 9⟩, channel_id_child_index := 0,
    seed := exSecret 10, starting_time_secs := 1234, starting_time_nanos := 5678 }

/-- C7 witness: the allocation equation evaluated on a concrete manager. -/
theorem C7_get_channel_keys_allocation_witness :
    exKM.starting_time_nanos < 2 ^ 32 ∧
    get_channel_keys trivCrypto exKM true 100000 =
      (derive_channel_keys trivCrypto exKM 100000
        ((exKM.channel_child_index % 2 ^ 32) * 2 ^ 32 + exKM.starting_time_nanos)
        exKM.starting_time_secs,
       { exKM with channel_child_index := exKM.channel_child_index + 1 }) :=
  ⟨by decide,
   (C7_get_channel_keys_allocation trivCrypto exKM 100000 (by decide)).1 true⟩

/-- C8: when the BIP-32 master key and the six hardened children derive
successfully, `KeysManager::new` produces a manager whose cached
`get_node_secret` is the `m/0'` private key, whose
`get_destination_script` is `OP_0` followed by the pushed 20-byte
HASH160 of the compressed public key of `m/1'`, and whose
`get_shutdown_pubkey` is the public key of `m/2'`; the three accessors
read immutable cached fields, so they return the same values on every
call. -/
theorem C8_keys_manager_new (c : Crypto) (seed : List Nat) (network : Network)
    (secs nanos : Nat) (master n0 n1 n2 n3 n4 n5 : ExtPrivKey)
    (hm : c.newMaster network seed = some master)
    (h0 : c.ckdPriv master 0 = some n0) (h1 : c.ckdPriv master 1 = some n1)
    (h2 : c.ckdPriv master 2 = some n2) (h3 : c.ckdPriv master 3 = some n3)
    (h4 : c.ckdPriv master 4 = some n4) (h5 : c.ckdPriv master 5 = some n5) :
    ∃ km, KeysManager.new c seed network secs nanos = .ok km ∧
      get_node_secret km = n0.privKey ∧
      get_destination_script km =
        OP_PUSHBYTES_0 :: pushSlice (c.hash160 (c.fromSecret n1.privKey)) ∧
      get_shutdown_pubkey km = c.fromSecret n2.privKey := by
  refine ⟨{ node_secret := n0.privKey,
            destination_script :=
              OP_PUSHBYTES_0 :: pushSlice (c.hash160 (c.fromSecret n1.privKey)),
            shutdown_pubkey := c.fromSecret n2.privKey,
            channel_master_key := n3, channel_child_index := 0,
            session_master_key := n4, session_child_index := 0,
            channel_id_master_key := n5, channel_id_child_index := 0,
            seed := seed, starting_time_secs := secs,
            starting_time_nanos := nanos }, ?_, rfl, rfl, rfl⟩
  simp [KeysManager.new, hm, h0, h1, h2, h3, h4, h5]

/-- C8 witness: evaluated with the concrete primitives and the all-zero
seed (spec scenario S1). -/
theorem C8_keys_manager_new_witness :
    trivCrypto.newMaster Network.bitcoin (List.replicate 32 0) =
      some ⟨List.replicate 32 0, List.replicate 32 1⟩ ∧
    ∃ km, KeysManager.new trivCrypto (List.replicate 32 0) Network.bitcoin 0 0 =
        .ok km ∧
      get_node_secret km = (0 : Nat) :: List.replicate 31 0 ∧
      get_destination_script km =
        OP_PUSHBYTES_0 :: pushSlice (trivCrypto.hash160
          (trivCrypto.fromSecret ((1 : Nat) :: List.replicate 31 0))) ∧
      get_shutdown_pubkey km =
        trivCrypto.fromSecret ((2 : Nat) :: List.replicate 31 0) := by
  refine ⟨by decide, ?_⟩
  have h := C8_keys_manager_new trivCrypto (List.replicate 32 0) Network.bitcoin 0 0
    ⟨List.replicate 32 0, List.replicate 32 1⟩
    ⟨0 :: List.replicate 31 0, List.replicate 32 1⟩
    ⟨1 :: List.replicate 31 0, List.replicate 32 1⟩
    ⟨2 :: List.replicate 31 0, List.replicate 32 1⟩
    ⟨3 :: List.replicate 31 0, List.replicate 32 1⟩
    ⟨4 :: List.replicate 31 0, List.replicate 32 1⟩
    ⟨5 :: List.replicate 31 0, List.replicate 32 1⟩
    (by decide) (by decide) (by decide) (by decide) (by decide) (by decide) (by decide)
  exact h

/-- The HTLC signing loop of `sign_remote_commitment`: when the per-channel
HTLC key derives and every built second-stage transaction has an input,
the result is one signature per non-dust HTLC, in slice order, over a
sighash whose amount is `amount_msat / 1000`. -/
theorem remoteHtlcSigsLoop_spec (c : Crypto) (k : InMemoryChannelKeys)
    (feerate : Nat) (keys : TxCreationKeys) (to_self_delay : Nat)
    (ctxid : List Nat) (hk : SecKey)
    (hd : c.derivePrivateKey keys.per_commitment_point k.htlc_base_key = some hk) :
    ∀ hs : List HTLCOutputInCommitment,
      (∀ h ∈ hs, (c.buildHtlcTransaction ctxid feerate to_self_delay h
        keys.a_delayed_payment_key keys.revocation_key).input ≠ []) →
      remoteHtlcSigsLoop c k feerate keys to_self_delay ctxid hs =
        .ok (hs.filterMap (fun h =>
          match h.transaction_output_index with
          | none => none
          | some _ =>
            some (c.sign (c.sighashAll
              (c.buildHtlcTransaction ctxid feerate to_self_delay h
                keys.a_delayed_payment_key keys.revocation_key)
              (c.buildHtlcTransaction ctxid feerate to_self_delay h
                keys.a_delayed_payment_key keys.revocation_key).input.headI
              (c.getHtlcRedeemscript h keys) (h.amount_msat / 1000)) hk))) := by
  intro hs
  induction hs with
  | nil => intro _; rfl
  | cons h t ih =>
    intro hne
    have hne_t : ∀ x ∈ t, (c.buildHtlcTransaction ctxid feerate to_self_delay x
        keys.a_delayed_payment_key keys.revocation_key).input ≠ [] :=
      fun x hx => hne x (List.mem_cons_of_mem h hx)
    cases hidx : h.transaction_output_index with
    | none =>
      simp only [remoteHtlcSigsLoop, hidx, List.filterMap_cons]
      exact ih hne_t
    | some i =>
      have hne_h := hne h (List.mem_cons_self h t)
      cases hinput : (c.buildHtlcTransaction ctxid feerate to_self_delay h
          keys.a_delayed_payment_key keys.revocation_key).input with
      | nil => exact absurd hinput hne_h
      | cons a t' =>
        simp only [remoteHtlcSigsLoop, hidx, hinput, List.head?, ih hne_t, hd,
          List.filterMap_cons, List.headI]

/-- C5: with remote basepoints set, `sign_remote_commitment` errs when the
input count differs from 1; with exactly one input (and successful HTLC
key derivation and well-formed built HTLC transactions) it returns the
funding-key signature over the BIP-143 sighash of input 0 with the
funding redeem script and `channel_value_satoshis`, paired with exactly
one signature per HTLC with `transaction_output_index = Some(_)`, in
slice order, each over a sighash with amount `amount_msat / 1000` and
signed with the key derived from `(per_commitment_point, htlc_base_key)`;
dust HTLCs contribute no element. -/
theorem C5_sign_remote_commitment_shape (c : Crypto) (k : InMemoryChannelKeys)
    (r : ChannelPublicKeys) (feerate : Nat) (keys : TxCreationKeys)
    (htlcs : List HTLCOutputInCommitment) (to_self_delay : Nat)
    (hr : k.remote_channel_pubkeys = some r) :
    (∀ tx, tx.input.length ≠ 1 →
      sign_remote_commitment c k feerate tx keys htlcs to_self_delay = .err) ∧
    (∀ tx in0 hk, tx.input = [in0] →
      c.derivePrivateKey keys.per_commitment_point k.htlc_base_key = some hk →
      (∀ h ∈ htlcs, (c.buildHtlcTransaction (c.txid tx) feerate to_self_delay h
        keys.a_delayed_payment_key keys.revocation_key).input ≠ []) →
      sign_remote_commitment c k feerate tx keys htlcs to_self_delay =
        .ok (c.sign (c.sighashAll tx in0
            (c.makeFundingRedeemscript (c.fromSecret k.funding_key) r.funding_pubkey)
            k.channel_value_satoshis) k.funding_key,
          htlcs.filterMap (fun h =>
            match h.transaction_output_index with
            | none => none
            | some _ =>
              some (c.sign (c.sighashAll
                (c.buildHtlcTransaction (c.txid tx) feerate to_self_delay h
                  keys.a_delayed_payment_key keys.revocation_key)
                (c.buildHtlcTransaction (c.txid tx) feerate to_self_delay h
                  keys.a_delayed_payment_key keys.revocation_key).input.headI
                (c.getHtlcRedeemscript h keys) (h.amount_msat / 1000)) hk)))) := by
  constructor
  · intro tx hlen
    rcases htx : tx.input with _ | ⟨a, _ | ⟨b, t⟩⟩
    · simp [sign_remote_commitment, htx]
    · rw [htx] at hlen; exact absurd rfl hlen
    · simp [sign_remote_commitment, htx]
  · intro tx in0 hk htx hd hne
    simp only [sign_remote_commitment, htx, hr,
      remoteHtlcSigsLoop_spec c k feerate keys to_self_delay (c.txid tx) hk hd htlcs hne]

/-- An example HTLC pair: one dust (no output index), one non-dust. -/
def exHtlcDust : HTLCOutputInCommitment :=
  { offered := true, amount_msat := 543000, cltv_expiry := 500000,
    payment_hash := List.replicate 32 20, transaction_output_index := none }

/-- The non-dust example HTLC. -/
def exHtlcLive : HTLCOutputInCommitment :=
  { offered := false, amount_msat := 250500, cltv_expiry := 500001,
    payment_hash := List.replicate 32 21, transaction_output_index := some 1 }

/-- Example per-commitment transaction keys. -/
def exTxKeys : TxCreationKeys :=
  { per_commitment_point := 2 :: List.replicate 32 22,
    revocation_key := 2 :: List.replicate 32 23,
    a_htlc_key := 2 :: List.replicate 32 24,
    b_htlc_key := 2 :: List.replicate 32 25,
    a_delayed_payment_key := 2 :: List.replicate 32 26,
    b_payment_key := 2 :: List.replicate 32 27 }

/-- C5 witness: a single-input commitment with one dust and one non-dust
HTLC yields the funding signature and exactly one HTLC signature. -/
theorem C5_sign_remote_commitment_shape_witness :
    sign_remote_commitment trivCrypto exKeysBound 253 exClosingTx exTxKeys
      [exHtlcDust, exHtlcLive] 144 =
      .ok (trivCrypto.sign (trivCrypto.sighashAll exClosingTx exClosingTx.input.headI
          (trivCrypto.makeFundingRedeemscript
            (trivCrypto.fromSecret exKeysBound.funding_key) exRemote.funding_pubkey)
          exKeysBound.channel_value_satoshis) exKeysBound.funding_key,
        [exHtlcDust, exHtlcLive].filterMap (fun h =>
          match h.transaction_output_index with
          | none => none
          | some _ =>
            some (trivCrypto.sign (trivCrypto.sighashAll
              (trivCrypto.buildHtlcTransaction (trivCrypto.txid exClosingTx) 253 144 h
                exTxKeys.a_delayed_payment_key exTxKeys.revocation_key)
              (trivCrypto.buildHtlcTransaction (trivCrypto.txid exClosingTx) 253 144 h
                exTxKeys.a_delayed_payment_key exTxKeys.revocation_key).input.headI
              (trivCrypto.getHtlcRedeemscript h exTxKeys) (h.amount_msat / 1000))
              (exTxKeys.per_commitment_point ++ exKeysBound.htlc_base_key)))) :=
  (C5_sign_remote_commitment_shape trivCrypto exKeysBound exRemote 253 exTxKeys
    [exHtlcDust, exHtlcLive] 144 rfl).2 exClosingTx exClosingTx.input.headI
    (exTxKeys.per_commitment_point ++ exKeysBound.htlc_base_key) (by decide) rfl
    (by decide)

/-- Reading a fixed width off a framed prefix returns the prefix. -/
theorem readBytesN_append (n : Nat) (bs rest : List Nat) (h : bs.length = n) :
    readBytesN n (bs ++ rest) = .ok (bs, rest) := by
  subst h
  simp [readBytesN, List.take_left, List.drop_left]

/-- Big-endian `u64` round trip. -/
theorem readU64be_writeU64be (n : Nat) (rest : List Nat) (h : n < 2 ^ 64) :
    readU64be (writeU64be n ++ rest) = .ok (n, rest) := by
  simp [writeU64be, be64, readU64be, Prod.ext_iff]
  omega

/-- Big-endian `u16` round trip. -/
theorem readU16be_writeU16be (n : Nat) (rest : List Nat) (h : n < 2 ^ 16) :
    readU16be (writeU16be n ++ rest) = .ok (n, rest) := by
  simp [writeU16be, readU16be, Prod.ext_iff]
  omega

/-- Little-endian `u32` round trip. -/
theorem readU32le_writeU32le (n : Nat) (rest : List Nat) (h : n < 2 ^ 32) :
    readU32le (writeU32le n ++ rest) = .ok (n, rest) := by
  simp [writeU32le, readU32le, Prod.ext_iff]
  omega

/-- Little-endian `u64` round trip. -/
theorem readU64le_writeU64le (n : Nat) (rest : List Nat) (h : n < 2 ^ 64) :
    readU64le (writeU64le n ++ rest) = .ok (n, rest) := by
  simp [writeU64le, readU64le, Prod.ext_iff]
  omega

/-- `CompactSize` round trip. -/
theorem readVarint_writeVarint (n : Nat) (rest : List Nat) (h : n < 2 ^ 64) :
    readVarint (writeVarint n ++ rest) = .ok (n, rest) := by
  by_cases h1 : n < 253
  · simp [writeVarint, readVarint, h1]
  · by_cases h2 : n < 2 ^ 16
    · have he : n % 256 + n / 2 ^ 8 % 256 * 2 ^ 8 = n := by omega
      unfold writeVarint
      rw [if_neg h1, if_pos h2]
      show Except.ok (n % 256 + n / 2 ^ 8 % 256 * 2 ^ 8, rest) = Except.ok (n, rest)
      rw [he]
    · by_cases h3 : n < 2 ^ 32
      · unfold writeVarint
        rw [if_neg h1, if_neg h2, if_pos h3, List.cons_append]
        show readU32le (writeU32le n ++ rest) = Except.ok (n, rest)
        exact readU32le_writeU32le n rest h3
      · unfold writeVarint
        rw [if_neg h1, if_neg h2, if_neg h3, List.cons_append]
        show readU64le (writeU64le n ++ rest) = Except.ok (n, rest)
        exact readU64le_writeU64le n rest h

/-- Representability of a `ChannelPublicKeys` value in the Rust types:
every basepoint is a 33-byte compressed key. -/
def wfCPKb (p : ChannelPublicKeys) : Bool :=
  (p.funding_pubkey.length == 33) && (p.revocation_basepoint.length == 33) &&
  (p.payment_point.length == 33) && (p.delayed_payment_basepoint.length == 33) &&
  (p.htlc_basepoint.length == 33)

/-- `ChannelPublicKeys` round trip. -/
theorem readCPK_writeCPK (p : ChannelPublicKeys) (rest : List Nat)
    (hwf : wfCPKb p = true) :
    readChannelPublicKeys (writeChannelPublicKeys p ++ rest) = .ok (p, rest) := by
  simp only [wfCPKb, Bool.and_eq_true, beq_iff_eq] at hwf
  obtain ⟨⟨⟨⟨h1, h2⟩, h3⟩, h4⟩, h5⟩ := hwf
  simp [writeChannelPublicKeys, readChannelPublicKeys, readPubKey, writePubKey,
    List.append_assoc, readBytesN_append, h1, h2, h3, h4, h5]

/-- Representability of the optional remote basepoints. -/
def wfOCPKb (o : Option ChannelPublicKeys) : Bool :=
  match o with
  | none => true
  | some p => wfCPKb p

/-- Optional `ChannelPublicKeys` round trip. -/
theorem readOptionCPK_writeOptionCPK (o : Option ChannelPublicKeys)
    (rest : List Nat) (hwf : wfOCPKb o = true) :
    readOptionCPK (writeOptionCPK o ++ rest) = .ok (o, rest) := by
  cases o with
  | none => simp [writeOptionCPK, readOptionCPK, readU8]
  | some p =>
    simp only [wfOCPKb] at hwf
    simp [writeOptionCPK, readOptionCPK, readU8,
      readCPK_writeCPK p rest hwf]

/-- Consensus outpoint round trip. -/
theorem readOutPoint_writeOutPoint (o : OutPoint) (rest : List Nat)
    (h1 : o.txid.length = 32) (h2 : o.vout < 2 ^ 32) :
    readOutPoint (writeOutPoint o ++ rest) = .ok (o, rest) := by
  simp [writeOutPoint, readOutPoint, List.append_assoc, readBytesN_append, h1,
    readU32le_writeU32le o.vout rest h2]

/-- Consensus output round trip. -/
theorem readTxOut_writeTxOut (t : TxOut) (rest : List Nat)
    (h1 : t.value < 2 ^ 64) (h2 : t.script_pubkey.length < 2 ^ 64) :
    readTxOut (writeTxOut t ++ rest) = .ok (t, rest) := by
  simp [writeTxOut, readTxOut, List.append_assoc,
    readU64le_writeU64le t.value _ h1,
    readVarint_writeVarint t.script_pubkey.length _ h2,
    readBytesN_append]

/-- Representability of an `OutPoint`: 32-byte txid, `u32` index. -/
def wfOutPointb (o : OutPoint) : Bool :=
  (o.txid.length == 32) && decide (o.vout < 2 ^ 32)

/-- Representability of a `TxOut`: `u64` value, addressable script. -/
def wfTxOutb (t : TxOut) : Bool :=
  decide (t.value < 2 ^ 64) && decide (t.script_pubkey.length < 2 ^ 64)

/-- Representability of an `InMemoryChannelKeys` value in the Rust types:
32-byte secrets and seed, 33-byte remote basepoints when present, `u64`
channel value and derivation parameters. -/
def wfIMCKb (k : InMemoryChannelKeys) : Bool :=
  (k.funding_key.length == 32) && (k.revocation_base_key.length == 32) &&
  (k.payment_key.length == 32) && (k.delayed_payment_base_key.length == 32) &&
  (k.htlc_base_key.length == 32) && (k.commitment_seed.length == 32) &&
  wfOCPKb k.remote_channel_pubkeys &&
  decide (k.channel_value_satoshis < 2 ^ 64) &&
  decide (k.key_derivation_params.1 < 2 ^ 64) &&
  decide (k.key_derivation_params.2 < 2 ^ 64)

/-- Representability of a `SpendableOutputDescriptor`. -/
def wfSODb (d : SpendableOutputDescriptor) : Bool :=
  match d with
  | .StaticOutput o t => wfOutPointb o && wfTxOutb t
  | .DynamicOutputP2WSH o pcp delay t params rp =>
    wfOutPointb o && (pcp.length == 33) && decide (delay < 2 ^ 16) && wfTxOutb t &&
    decide (params.1 < 2 ^ 64) && decide (params.2 < 2 ^ 64) && (rp.length == 33)
  | .StaticOutputRemotePayment o t params =>
    wfOutPointb o && wfTxOutb t && decide (params.1 < 2 ^ 64) &&
    decide (params.2 < 2 ^ 64)

/-- C6: decode-of-encode round trips. For every representable
`InMemoryChannelKeys` whose cached local basepoints satisfy the
constructor invariant (they are `make_local_keys` of its secrets — the
read side recomputes them rather than storing them), and every
representable `SpendableOutputDescriptor`, reading the written bytes
succeeds, consumes them exactly, and returns the original value field by
field. -/
theorem C6_serialization_round_trip :
    (∀ (c : Crypto) (k : InMemoryChannelKeys) (rest : List Nat),
      wfIMCKb k = true →
      k.local_channel_pubkeys = make_local_keys c k.funding_key
        k.revocation_base_key k.payment_key k.delayed_payment_base_key
        k.htlc_base_key →
      readInMemoryChannelKeys c (writeInMemoryChannelKeys k ++ rest) =
        .ok (k, rest)) ∧
    (∀ (d : SpendableOutputDescriptor) (rest : List Nat), wfSODb d = true →
      readSpendableOutputDescriptor (writeSpendableOutputDescriptor d ++ rest) =
        .ok (d, rest)) := by
  constructor
  · intro c k rest hwf hl
    simp only [wfIMCKb, Bool.and_eq_true, beq_iff_eq, decide_eq_true_eq] at hwf
    obtain ⟨⟨⟨⟨⟨⟨⟨⟨⟨h1, h2⟩, h3⟩, h4⟩, h5⟩, h6⟩, h7⟩, h8⟩, h9⟩, h10⟩ := hwf
    simp [writeInMemoryChannelKeys, readInMemoryChannelKeys, readSecKey,
      writeSecKey, List.append_assoc, readBytesN_append, h1, h2, h3, h4, h5, h6,
      readOptionCPK_writeOptionCPK _ _ h7, readU64be_writeU64be _ _ h8,
      readU64be_writeU64be _ _ h9, readU64be_writeU64be _ _ h10, ← hl]
  · intro d rest hwf
    cases d with
    | StaticOutput o t =>
      simp only [wfSODb, Bool.and_eq_true, wfOutPointb, wfTxOutb, beq_iff_eq,
        decide_eq_true_eq] at hwf
      obtain ⟨⟨ho1, ho2⟩, ht1, ht2⟩ := hwf
      simp [writeSpendableOutputDescriptor, readSpendableOutputDescriptor, readU8,
        List.append_assoc, readOutPoint_writeOutPoint o _ ho1 ho2,
        readTxOut_writeTxOut t _ ht1 ht2]
    | DynamicOutputP2WSH o pcp delay t params rp =>
      simp only [wfSODb, Bool.and_eq_true, wfOutPointb, wfTxOutb, beq_iff_eq,
        decide_eq_true_eq] at hwf
      obtain ⟨⟨⟨⟨⟨⟨⟨ho1, ho2⟩, hp⟩, hd⟩, ht1, ht2⟩, h81⟩, h82⟩, hrp⟩ := hwf
      simp [writeSpendableOutputDescriptor, readSpendableOutputDescriptor, readU8,
        writePubKey, readPubKey, List.append_assoc,
        readOutPoint_writeOutPoint o _ ho1 ho2, readBytesN_append, hp, hrp,
        readU16be_writeU16be _ _ hd, readTxOut_writeTxOut t _ ht1 ht2,
        readU64be_writeU64be _ _ h81, readU64be_writeU64be _ _ h82]
    | StaticOutputRemotePayment o t params =>
      simp only [wfSODb, Bool.and_eq_true, wfOutPointb, wfTxOutb, beq_iff_eq,
        decide_eq_true_eq] at hwf
      obtain ⟨⟨⟨⟨ho1, ho2⟩, ht1, ht2⟩, h81⟩, h82⟩ := hwf
      simp [writeSpendableOutputDescriptor, readSpendableOutputDescriptor, readU8,
        List.append_assoc, readOutPoint_writeOutPoint o _ ho1 ho2,
        readTxOut_writeTxOut t _ ht1 ht2, readU64be_writeU64be _ _ h81,
        readU64be_writeU64be _ _ h82]

/-- An example `DynamicOutputP2WSH` descriptor (spec scenario S5 shape). -/
def exDesc : SpendableOutputDescriptor :=
  .DynamicOutputP2WSH ⟨List.replicate 32 1, 5⟩ (2 :: List.replicate 32 2) 144
    ⟨330, [0, 20]⟩ (7, 8) (3 :: List.replicate 32 3)

/-- C6 witness: round trips evaluated on the example signer and an example
descriptor with `to_self_delay = 144`. -/
theorem C6_serialization_round_trip_witness :
    readInMemoryChannelKeys trivCrypto (writeInMemoryChannelKeys exKeysBound ++ []) =
      .ok (exKeysBound, []) ∧
    readSpendableOutputDescriptor (writeSpendableOutputDescriptor exDesc ++ [99]) =
      .ok (exDesc, [99]) :=
  ⟨C6_serialization_round_trip.1 trivCrypto exKeysBound [] (by decide) rfl,
   C6_serialization_round_trip.2 exDesc [99] (by decide)⟩
